import Mathlib

set_option maxRecDepth 100000

/-!
Verification of the taxi-trip normalization and deduplication-key derivation
routine of `05-bruin/my-taxi-pipeline/pipeline/assets/ingestion/trips.py`.

The embedding models the pandas DataFrame manipulated by the module as an
ordered association list of named columns over a `Value` type that mirrors the
scalar kinds actually flowing through the code (Int64 cells, float64 cells
carried by their Python `repr` string since the code never does float
arithmetic on them, datetime64 cells, pandas/Python null markers, strings).
-/

namespace TaxiTrips

/-- A calendar timestamp as produced by `pd.read_csv(..., parse_dates=...)`
(second granularity; the data files carry no sub-second components). -/
structure Timestamp where
  year : Nat
  month : Nat
  day : Nat
  hour : Nat
  minute : Nat
  second : Nat
deriving DecidableEq

/-- Zero-pad a number to two digits, as in ISO timestamp rendering. -/
def pad2 (n : Nat) : String :=
  if n < 10 then "0" ++ toString n else toString n

/-- `str(pandas.Timestamp)`: ISO date and time separated by a SPACE
(e.g. `2020-01-05 08:00:00`), microseconds omitted when zero. -/
def Timestamp.render (t : Timestamp) : String :=
  toString t.year ++ "-" ++ pad2 t.month ++ "-" ++ pad2 t.day ++ " " ++
    pad2 t.hour ++ ":" ++ pad2 t.minute ++ ":" ++ pad2 t.second

/-- One scalar cell of the modelled DataFrame.  Null markers are kept
distinct per dtype because `astype(str)` renders them differently. -/
inductive Value where
  /-- a Python/pandas string cell (dtype `string` / `object`) -/
  | str (s : String)
  /-- an `Int64` cell -/
  | int (n : Int)
  /-- a `float64` cell, carried by its Python `repr` (the code performs no
  arithmetic on floats; e.g. the CSV value `15.0` is carried as `"15.0"`,
  `12.50` as `"12.5"`) -/
  | float (r : String)
  /-- a `datetime64` cell -/
  | ts (t : Timestamp)
  /-- `float64` NaN; `astype(str)` renders it `"nan"` -/
  | nan
  /-- `datetime64` NaT; `astype(str)` renders it `"NaT"` -/
  | naT
  /-- Python `None` (object cell); `astype(str)` renders it `"None"` -/
  | pyNone
  /-- `pandas.NA`; `astype(str)` renders it `"<NA>"` -/
  | na
deriving DecidableEq

/-- `astype(str)` on one cell: Python string form of the cell value. -/
def Value.pyStr : Value → String
  | .str s => s
  | .int n => toString n
  | .float r => r
  | .ts t => t.render
  | .nan => "nan"
  | .naT => "NaT"
  | .pyNone => "None"
  | .na => "<NA>"

/-- The modelled `pandas.DataFrame`: an ordered list of named columns.
Column assignment on an existing name replaces in place; on a new name it
appends at the end, as pandas does. -/
structure DataFrame where
  cols : List (String × List Value)
deriving DecidableEq

namespace DataFrame

/-- `name in df.columns`. -/
def hasCol (df : DataFrame) (n : String) : Bool :=
  df.cols.any (fun p => p.1 == n)

/-- `df.get(name)`: the column if present, else Python `None`. -/
def getCol (df : DataFrame) (n : String) : Option (List Value) :=
  (df.cols.find? (fun p => p.1 == n)).map (fun p => p.2)

/-- Column lookup with an (unused when the column is present) default. -/
def colD (df : DataFrame) (n : String) : List Value :=
  (df.getCol n).getD []

/-- Number of rows: the length of the first column (0 for a column-less
frame), matching a rectangular pandas frame. -/
def nrows (df : DataFrame) : Nat :=
  match df.cols with
  | [] => 0
  | c :: _ => c.2.length

/-- `df[name] = column`: replace the column in place when the name exists,
append it at the end otherwise (pandas assignment semantics). -/
def setCol (df : DataFrame) (n : String) (v : List Value) : DataFrame :=
  if df.cols.any (fun p => p.1 == n) then
    ⟨df.cols.map (fun p => if p.1 == n then (n, v) else p)⟩
  else
    ⟨df.cols ++ [(n, v)]⟩

/-- `df[name] = x` where `x` is a column (`Series`) or the scalar `None`
(the result of a failed `df.get`): `None` broadcasts to a column of `None`. -/
def setColOpt (df : DataFrame) (n : String) (v : Option (List Value)) : DataFrame :=
  match v with
  | some col => df.setCol n col
  | none => df.setCol n (List.replicate df.nrows Value.pyNone)

/-- The ordered list of column names. -/
def colNames (df : DataFrame) : List String :=
  df.cols.map (fun p => p.1)

/-- The cell at column `n`, row `i`. -/
def rowVal (df : DataFrame) (n : String) (i : Nat) : Option Value :=
  (df.getCol n).bind (fun col => col.get? i)

end DataFrame

/-! ### SHA-256 (`hashlib.sha256(x).hexdigest()`)

Executable model of the SHA-256 function denoted by `hashlib.sha256`, over
`Nat` bytes/words with explicit reduction modulo `2^32`. -/

/-- `2^32`, the word modulus of SHA-256. -/
def w32 : Nat := 4294967296

/-- Right rotation of a 32-bit word. -/
def rotr32 (n x : Nat) : Nat :=
  ((x >>> n) ||| ((x % (2 ^ n)) <<< (32 - n))) % w32

/-- SHA-256 `Ch(x,y,z)` (complement taken by xor with the 32-bit mask). -/
def shaCh (x y z : Nat) : Nat :=
  (x &&& y) ^^^ ((x ^^^ 4294967295) &&& z)

/-- SHA-256 `Maj(x,y,z)`. -/
def shaMaj (x y z : Nat) : Nat :=
  (x &&& y) ^^^ (x &&& z) ^^^ (y &&& z)

/-- SHA-256 big sigma-0. -/
def bSig0 (x : Nat) : Nat := rotr32 2 x ^^^ rotr32 13 x ^^^ rotr32 22 x

/-- SHA-256 big sigma-1. -/
def bSig1 (x : Nat) : Nat := rotr32 6 x ^^^ rotr32 11 x ^^^ rotr32 25 x

/-- SHA-256 small sigma-0. -/
def sSig0 (x : Nat) : Nat := rotr32 7 x ^^^ rotr32 18 x ^^^ (x >>> 3)

/-- SHA-256 small sigma-1. -/
def sSig1 (x : Nat) : Nat := rotr32 17 x ^^^ rotr32 19 x ^^^ (x >>> 10)

/-- The 64 standard SHA-256 round constants (fractional parts of the cube
roots of the first 64 primes), written in decimal. -/
def sha256K : List Nat :=
  [1116352408, 1899447441, 3049323471, 3921009573,
   961987163, 1508970993, 2453635748, 2870763221,
   3624381080, 310598401, 607225278, 1426881987,
   1925078388, 2162078206, 2614888103, 3248222580,
   3835390401, 4022224774, 264347078, 604807628,
   770255983, 1249150122, 1555081692, 1996064986,
   2554220882, 2821834349, 2952996808, 3210313671,
   3336571891, 3584528711, 113926993, 338241895,
   666307205, 773529912, 1294757372, 1396182291,
   1695183700, 1986661051, 2177026350, 2456956037,
   2730485921, 2820302411, 3259730800, 3345764771,
   3516065817, 3600352804, 4094571909, 275423344,
   430227734, 506948616, 659060556, 883997877,
   958139571, 1322822218, 1537002063, 1747873779,
   1955562222, 2024104815, 2227730452, 2361852424,
   2428436474, 2756734187, 3204031479, 3329325298]

/-- The standard SHA-256 initial hash words (fractional parts of the square
roots of the first 8 primes), written in decimal. -/
def sha256H0 : List Nat :=
  [1779033703, 3144134277, 1013904242, 2773480762,
   1359893119, 2600822924, 528734635, 1541459225]

/-- SHA-256 padding: append `0x80`, zeros to 56 mod 64, then the bit length
as 8 big-endian bytes. -/
def padMessage (msg : List Nat) : List Nat :=
  let L := msg.length
  let k := (119 - (L % 64)) % 64
  let lenBytes := (List.range 8).map (fun i => ((L * 8) >>> (8 * (7 - i))) % 256)
  msg ++ [0x80] ++ List.replicate k 0 ++ lenBytes

/-- Big-endian bytes to 32-bit words, four at a time. -/
def bytesToWords : List Nat → List Nat
  | b0 :: b1 :: b2 :: b3 :: rest =>
      (((b0 * 256 + b1) * 256 + b2) * 256 + b3) :: bytesToWords rest
  | _ => []

/-- Split a byte list into 64-byte blocks (fuel-indexed so it reduces in
the kernel; the fuel is instantiated with the list length). -/
def chunk64Go : Nat → List Nat → List (List Nat)
  | 0, _ => []
  | _ + 1, [] => []
  | fuel + 1, l => l.take 64 :: chunk64Go fuel (l.drop 64)

/-- Split a byte list into 64-byte blocks. -/
def chunk64 (l : List Nat) : List (List Nat) :=
  chunk64Go l.length l

/-- Extend the 16-word message schedule by `k` further words. -/
def extendSchedule : Nat → List Nat → List Nat
  | 0, w => w
  | k + 1, w =>
      let n := w.length
      let nw := (sSig1 (w.getD (n - 2) 0) + w.getD (n - 7) 0 +
                 sSig0 (w.getD (n - 15) 0) + w.getD (n - 16) 0) % w32
      extendSchedule k (w ++ [nw])

/-- The full 64-word message schedule of one block. -/
def schedule (block : List Nat) : List Nat :=
  extendSchedule 48 (bytesToWords block)

/-- The eight SHA-256 working registers. -/
structure Regs where
  a : Nat
  b : Nat
  c : Nat
  d : Nat
  e : Nat
  f : Nat
  g : Nat
  hh : Nat
deriving DecidableEq

/-- One SHA-256 compression round. -/
def shaStep (r : Regs) (kw : Nat × Nat) : Regs :=
  let t1 := (r.hh + bSig1 r.e + shaCh r.e r.f r.g + kw.1 + kw.2) % w32
  let t2 := (bSig0 r.a + shaMaj r.a r.b r.c) % w32
  ⟨(t1 + t2) % w32, r.a, r.b, r.c, (r.d + t1) % w32, r.e, r.f, r.g⟩

/-- Run the 64 compression rounds. -/
def shaRounds (r : Regs) : List (Nat × Nat) → Regs
  | [] => r
  | kw :: rest => shaRounds (shaStep r kw) rest

/-- Compress one 64-byte block into the running hash words. -/
def compressBlock (hs : List Nat) (block : List Nat) : List Nat :=
  let ws := schedule block
  let r0 : Regs := ⟨hs.getD 0 0, hs.getD 1 0, hs.getD 2 0, hs.getD 3 0,
                    hs.getD 4 0, hs.getD 5 0, hs.getD 6 0, hs.getD 7 0⟩
  let r := shaRounds r0 (sha256K.zip ws)
  [(hs.getD 0 0 + r.a) % w32, (hs.getD 1 0 + r.b) % w32,
   (hs.getD 2 0 + r.c) % w32, (hs.getD 3 0 + r.d) % w32,
   (hs.getD 4 0 + r.e) % w32, (hs.getD 5 0 + r.f) % w32,
   (hs.getD 6 0 + r.g) % w32, (hs.getD 7 0 + r.hh) % w32]

/-- SHA-256 of a byte list, as the 32 digest bytes. -/
def sha256Bytes (msg : List Nat) : List Nat :=
  let hs := (chunk64 (padMessage msg)).foldl compressBlock sha256H0
  hs.foldr (fun wd acc =>
    (wd >>> 24) % 256 :: (wd >>> 16) % 256 :: (wd >>> 8) % 256 :: wd % 256 :: acc) []

/-- The lowercase hex character of a value below 16 (`0`-`9` then `a`-`f`). -/
def hexDigit (d : Nat) : Char :=
  if d < 10 then Char.ofNat (48 + d) else Char.ofNat (87 + d)

/-- One byte as two lowercase hex characters. -/
def byteToHex (b : Nat) : String :=
  String.mk [hexDigit (b / 16), hexDigit (b % 16)]

/-- `.hexdigest()`: the digest bytes as a lowercase hex string. -/
def hexDigest (bs : List Nat) : String :=
  String.join (bs.map byteToHex)

/-- `hashlib.sha256(msg).hexdigest()` for a byte-list message. -/
def sha256HexOf (msg : List Nat) : String :=
  hexDigest (sha256Bytes msg)

/-- `.encode('utf-8')` of one character. -/
def utf8Char (c : Char) : List Nat :=
  let n := c.toNat
  if n < 128 then [n]
  else if n < 2048 then [192 + n / 64, 128 + n % 64]
  else if n < 65536 then [224 + n / 4096, 128 + (n / 64) % 64, 128 + n % 64]
  else [240 + n / 262144, 128 + (n / 4096) % 64, 128 + (n / 64) % 64, 128 + n % 64]

/-- `.encode('utf-8')` of a string. -/
def utf8Encode (s : String) : List Nat :=
  s.data.foldr (fun c acc => utf8Char c ++ acc) []

/-! ### Python-level error semantics the claims depend on -/

/-- The Python exceptions the modelled statements can raise. -/
inductive PyErr where
  /-- `NameError`: the statement references an unbound name. -/
  | nameError (missing : String)
  /-- `ValueError`, e.g. pandas refusing `bool()` of a `Series`. -/
  | valueError (msg : String)
  /-- `KeyError`: `df[name]` on an absent column. -/
  | keyError (key : String)
deriving DecidableEq

/-- The message pandas raises from `bool(Series)`. -/
def ambiguousMsg : String :=
  "The truth value of a Series is ambiguous."

/-- Python `a or b` where each operand is a `Series` (a column) or `None`
(a failed `df.get`).  `bool(None)` is `False`, so `None or b` yields `b`;
`bool(Series)` raises `ValueError` unconditionally in pandas, so a present
first operand raises before any fallback can happen. -/
def pyOr (a b : Option (List Value)) : Except PyErr (Option (List Value)) :=
  match a with
  | some _ => .error (.valueError ambiguousMsg)
  | none => .ok b

/-- `df[name]`: indexing raises `KeyError` on an absent column. -/
def DataFrame.colE (df : DataFrame) (n : String) : Except PyErr (List Value) :=
  match df.getCol n with
  | some col => .ok col
  | none => .error (.keyError n)

/-- The names bound at module level in `trips.py`: the imports of lines
46-51 (`json`, `os`, `pandas as pd`, `requests`, `BytesIO`, `glob`) and the
module-level definitions.  Neither `datetime` nor `hashlib` is among them. -/
def moduleBindings : List String :=
  ["json", "os", "pd", "requests", "BytesIO", "glob",
   "DTYPES", "PARSE_DATES", "TARGET_COLUMNS",
   "read_taxi_file_from_bytes", "add_trip_id", "materialize"]

/-- Evaluating a global name: `NameError` when it is not bound. -/
def evalName (n : String) : Except PyErr Unit :=
  if moduleBindings.contains n then .ok () else .error (.nameError n)

/-! ### The normalizer steps (`read_taxi_file_from_bytes`, lines 123-170) -/

/-- Lines 137-145: select the pickup/dropoff timestamp pair by which
family-specific columns are present (`tpep_*`, else `lpep_*`, else the bare
FHV pair, with the FHV dropoff defaulting to `pd.NA` when absent). -/
def normalizeDatetimes (df : DataFrame) : Except PyErr DataFrame :=
  if df.hasCol "tpep_pickup_datetime" then
    (df.colE "tpep_pickup_datetime").bind (fun p =>
      (df.colE "tpep_dropoff_datetime").bind (fun q =>
        Except.ok ((df.setCol "pickup_datetime" p).setCol "dropoff_datetime" q)))
  else if df.hasCol "lpep_pickup_datetime" then
    (df.colE "lpep_pickup_datetime").bind (fun p =>
      (df.colE "lpep_dropoff_datetime").bind (fun q =>
        Except.ok ((df.setCol "pickup_datetime" p).setCol "dropoff_datetime" q)))
  else if df.hasCol "pickup_datetime" then
    (df.colE "pickup_datetime").bind (fun p =>
      if df.hasCol "dropOff_datetime" then
        Except.ok ((df.setCol "pickup_datetime" p).setCol "dropoff_datetime"
          ((df.setCol "pickup_datetime" p).colD "dropOff_datetime"))
      else
        Except.ok ((df.setCol "pickup_datetime" p).setCol "dropoff_datetime"
          (List.replicate (df.setCol "pickup_datetime" p).nrows Value.na)))
  else
    Except.ok df

/-- Lines 147-149: `df["pickup_location_id"] = df.get("PULocationID") or
df.get("PUlocationID")` and the same for the dropoff pair. -/
def normalizeLocations (df : DataFrame) : Except PyErr DataFrame :=
  (pyOr (df.getCol "PULocationID") (df.getCol "PUlocationID")).bind (fun pu =>
    (pyOr ((df.setColOpt "pickup_location_id" pu).getCol "DOLocationID")
        ((df.setColOpt "pickup_location_id" pu).getCol "DOlocationID")).bind (fun dl =>
      Except.ok ((df.setColOpt "pickup_location_id" pu).setColOpt
        "dropoff_location_id" dl)))

/-- `pd.to_numeric(x, errors="coerce").astype("Int64")` on one cell of the
string-dtype `SR_Flag` column: an integer-literal string becomes that
integer, anything unparseable (and any missing cell) coerces to the Int64
null.  (The modelled domain is integer-or-unparseable strings; the flag
column holds small integer codes.) -/
def toNumericInt64 : Value → Value
  | .str s =>
      match s.toInt? with
      | some n => .int n
      | none => .na
  | .int n => .int n
  | _ => .na

/-- Line 152: `df["vendor_id"] = df.get("VendorID")`. -/
def setVendor (df : DataFrame) : DataFrame :=
  df.setColOpt "vendor_id" (df.getCol "VendorID")

/-- Line 153: `df["ratecode_id"] = df.get("RatecodeID")`. -/
def setRatecode (df : DataFrame) : DataFrame :=
  df.setColOpt "ratecode_id" (df.getCol "RatecodeID")

/-- Lines 155-158: the `SR_Flag` coercion (cell-wise
`to_numeric(errors="coerce").astype("Int64")` when present, an all-`pd.NA`
column otherwise). -/
def setSrFlag (df : DataFrame) : DataFrame :=
  if df.hasCol "SR_Flag" then
    df.setCol "sr_flag" ((df.colD "SR_Flag").map toNumericInt64)
  else
    df.setCol "sr_flag" (List.replicate df.nrows Value.na)

/-- Line 160: `df["affiliated_base_number"] = df.get("Affiliated_base_number")`. -/
def setAffiliated (df : DataFrame) : DataFrame :=
  df.setColOpt "affiliated_base_number" (df.getCol "Affiliated_base_number")

/-- Line 161: `df["dispatching_base_num"] = df.get("dispatching_base_num")`. -/
def setDispatching (df : DataFrame) : DataFrame :=
  df.setColOpt "dispatching_base_num" (df.getCol "dispatching_base_num")

/-- Lines 152-161: vendor/ratecode renames, the `SR_Flag` coercion, and the
affiliated/dispatching base renames, in statement order. -/
def normalizeOther (df : DataFrame) : DataFrame :=
  setDispatching (setAffiliated (setSrFlag (setRatecode (setVendor df))))

/-- Lines 163-166: for any service other than `green`, broadcast `pd.NA`
over `trip_type` and `ehail_fee`. -/
def nullGreenOnly (service : String) (df : DataFrame) : DataFrame :=
  if service = "green" then df
  else
    (df.setCol "trip_type" (List.replicate df.nrows Value.na)).setCol
      "ehail_fee" (List.replicate df.nrows Value.na)

/-- Line 168 with the name `datetime` resolved to the library it denotes:
stamp `extracted_at` with the wall-clock timestamp `now`. -/
def stampExtractedAt (now : Timestamp) (df : DataFrame) : DataFrame :=
  df.setCol "extracted_at" (List.replicate df.nrows (Value.ts now))

/-- `read_taxi_file_from_bytes` from the parsed CSV frame onward (the
`pd.read_csv` decode itself is the external boundary), with the unbound
name `datetime` of line 168 resolved to the library it denotes — the
run-clock value is passed in as `now`.  The missing import itself is
modelled by `read_taxi_file_from_bytes_literal`. -/
def read_taxi_file_from_bytes (df : DataFrame) (service : String)
    (now : Timestamp) : Except PyErr DataFrame :=
  (normalizeDatetimes
      (df.setCol "service_type" (List.replicate df.nrows (Value.str service)))).bind
    (fun d2 => (normalizeLocations d2).bind
      (fun d3 =>
        Except.ok (stampExtractedAt now (nullGreenOnly service (normalizeOther d3)))))

/-- `read_taxi_file_from_bytes` exactly as written: line 168 evaluates the
global name `datetime`, which the module never binds, so the statement is
modelled through `evalName` (its success branch can never be reached; the
arbitrary timestamp there is dead code). -/
def read_taxi_file_from_bytes_literal (df : DataFrame) (service : String) :
    Except PyErr DataFrame :=
  (normalizeDatetimes
      (df.setCol "service_type" (List.replicate df.nrows (Value.str service)))).bind
    (fun d2 => (normalizeLocations d2).bind
      (fun d3 => (evalName "datetime").bind
        (fun _ => Except.ok (stampExtractedAt ⟨0, 0, 0, 0, 0, 0⟩
          (nullGreenOnly service (normalizeOther d3))))))

/-! ### `add_trip_id` (lines 172-184) -/

/-- Line 174-175: the six key columns, in their fixed order. -/
def keyCols : List String :=
  ["service_type", "pickup_datetime", "dropoff_datetime",
   "pickup_location_id", "dropoff_location_id", "fare_amount"]

/-- Lines 178-180: create each key column that is absent, broadcasting
`pd.NA`. -/
def fillMissing (cs : List String) (df : DataFrame) : DataFrame :=
  match cs with
  | [] => df
  | c :: rest =>
      fillMissing rest
        (if df.hasCol c then df else df.setCol c (List.replicate df.nrows Value.na))

/-- The fill loop of lines 178-180 over the six key columns. -/
def fillKeys (df : DataFrame) : DataFrame :=
  fillMissing keyCols df

/-- Python `sep.join(xs)`. -/
def pyJoin (sep : String) : List String → String
  | [] => ""
  | [x] => x
  | x :: xs => x ++ sep ++ pyJoin sep xs

/-- The six key cells of row `i` (all key columns exist after the fill). -/
def keyValsAt (df : DataFrame) (i : Nat) : List Value :=
  keyCols.map (fun c => (df.colD c).getD i Value.na)

/-- The composite key of a list of cells: `'|'.join` of their `str` forms
(line 182). -/
def keyStringOf (vs : List Value) : String :=
  pyJoin "|" (vs.map Value.pyStr)

/-- Line 182 for row `i`: the composite key string of the row. -/
def keyStringAt (df : DataFrame) (i : Nat) : String :=
  keyStringOf (keyValsAt df i)

/-- Line 183 for row `i`: the first 32 hex characters of the SHA-256 of the
UTF-8-encoded composite key. -/
def tripIdAt (df : DataFrame) (i : Nat) : String :=
  (sha256HexOf (utf8Encode (keyStringAt df i))).take 32

/-- `add_trip_id` with the unbound name `hashlib` of line 183 resolved to
the library it denotes (the missing import is modelled by
`add_trip_id_literal`): fill absent key columns with `pd.NA`, then assign
`trip_id` the truncated hash of each row's composite key. -/
def add_trip_id (df : DataFrame) : DataFrame :=
  let d := fillKeys df
  d.setCol "trip_id" ((List.range d.nrows).map (fun i => Value.str (tripIdAt d i)))

/-- `add_trip_id` exactly as written: the comprehension of line 183
evaluates the global name `hashlib` once per row, and the module never
binds it, so any frame with at least one row raises `NameError` (an empty
frame runs the empty comprehension and succeeds). -/
def add_trip_id_literal (df : DataFrame) : Except PyErr DataFrame :=
  ((List.range (fillKeys df).nrows).mapM
    (fun i => (evalName "hashlib").map
      (fun _ => Value.str (tripIdAt (fillKeys df) i)))).map
    (fun ids => (fillKeys df).setCol "trip_id" ids)

/-- The normalization pipeline as `materialize` runs it per service file
(lines 211-212): `read_taxi_file_from_bytes` then `add_trip_id`. -/
def normalizeTrips (df : DataFrame) (service : String) (now : Timestamp) :
    Except PyErr DataFrame :=
  (read_taxi_file_from_bytes df service now).map add_trip_id

/-! ### The output projection of `materialize` (lines 94-121, 217-230) -/

/-- Lines 94-121: the fixed output column list. -/
def TARGET_COLUMNS : List String :=
  ["data_file_month", "service_type", "trip_id", "vendor_id",
   "pickup_datetime", "dropoff_datetime", "pickup_location_id",
   "dropoff_location_id", "trip_distance", "passenger_count", "ratecode_id",
   "store_and_fwd_flag", "payment_type", "fare_amount", "extra", "mta_tax",
   "tip_amount", "tolls_amount", "improvement_surcharge", "total_amount",
   "trip_type", "ehail_fee", "dispatching_base_num",
   "affiliated_base_number", "sr_flag", "extracted_at"]

/-- Lines 218-219: `df[available_cols]` — keep, in target order, exactly
the target columns present in the frame. -/
def selectAvailable (df : DataFrame) : DataFrame :=
  ⟨(TARGET_COLUMNS.filter (fun c => df.hasCol c)).map (fun c => (c, df.colD c))⟩

/-- Line 230: `df.reindex(columns=cols)` — the result has exactly the given
columns in the given order, filling any absent column with NaN. -/
def reindexTo (cs : List String) (df : DataFrame) : DataFrame :=
  ⟨cs.map (fun c => (c, (df.getCol c).getD (List.replicate df.nrows Value.nan)))⟩

/-- The column projection `materialize` applies to each normalized frame
(lines 218-219 and 230). -/
def materializeProject (df : DataFrame) : DataFrame :=
  reindexTo TARGET_COLUMNS (selectAvailable df)

/-- Unwrap a successful run (the error branch is only used where a run is
separately proved successful). -/
def runOk (r : Except PyErr DataFrame) : DataFrame :=
  match r with
  | .ok d => d
  | .error _ => ⟨[]⟩

/-- Whether a modelled run succeeded. -/
def isOkRun (r : Except PyErr DataFrame) : Bool :=
  match r with
  | .ok _ => true
  | .error _ => false

/-! ### Lemmas about the DataFrame operations -/

namespace DataFrame

theorem find_map_replace (l : List (String × List Value)) (n : String)
    (v : List Value) (h : l.any (fun p => p.1 == n) = true) :
    (l.map (fun p => if p.1 == n then (n, v) else p)).find?
      (fun p => p.1 == n) = some (n, v) := by
  induction l with
  | nil => simp at h
  | cons a t ih =>
    rw [List.map_cons]
    by_cases ha : a.1 = n
    · rw [if_pos (by simpa using ha)]
      exact List.find?_cons_of_pos _ (by simp)
    · have ha' : (a.1 == n) = false := by simp [ha]
      simp only [List.any_cons, ha', Bool.false_or] at h
      rw [if_neg (by simp [ha]), List.find?_cons_of_neg _ (by simp [ha])]
      exact ih h

theorem find_append_new (l : List (String × List Value)) (n : String)
    (v : List Value) (h : l.any (fun p => p.1 == n) = false) :
    (l ++ [(n, v)]).find? (fun p => p.1 == n) = some (n, v) := by
  induction l with
  | nil => simp [List.find?_cons]
  | cons a t ih =>
    simp only [List.any_cons, Bool.or_eq_false_iff] at h
    simp [List.find?_cons, h.1, ih h.2]

theorem getCol_setCol_self (df : DataFrame) (n : String) (v : List Value) :
    (df.setCol n v).getCol n = some v := by
  unfold setCol getCol
  by_cases h : df.cols.any (fun p => p.1 == n)
  · simp only [h, if_true, find_map_replace df.cols n v h]
    rfl
  · simp only [Bool.not_eq_true] at h
    simp only [h, Bool.false_eq_true, if_false, find_append_new df.cols n v h]
    rfl

theorem find_map_replace_ne (l : List (String × List Value)) (n m : String)
    (v : List Value) (h : m ≠ n) :
    (l.map (fun p => if p.1 == n then (n, v) else p)).find?
      (fun p => p.1 == m) = l.find? (fun p => p.1 == m) := by
  induction l with
  | nil => rfl
  | cons a t ih =>
    rw [List.map_cons]
    by_cases ha : a.1 = n
    · rw [if_pos (by simpa using ha)]
      have h2 : ¬a.1 = m := fun hh => h (hh.symm.trans ha)
      rw [List.find?_cons_of_neg _ (by simp [Ne.symm h]),
          List.find?_cons_of_neg _ (by simp [h2])]
      exact ih
    · rw [if_neg (by simpa using ha)]
      by_cases ham : a.1 = m
      · rw [List.find?_cons_of_pos _ (by simpa using ham),
            List.find?_cons_of_pos _ (by simpa using ham)]
      · rw [List.find?_cons_of_neg _ (by simpa using ham),
            List.find?_cons_of_neg _ (by simpa using ham)]
        exact ih

theorem getCol_setCol_ne (df : DataFrame) (n m : String) (v : List Value)
    (h : m ≠ n) :
    (df.setCol n v).getCol m = df.getCol m := by
  unfold setCol getCol
  by_cases hc : df.cols.any (fun p => p.1 == n)
  · simp only [hc, if_true, find_map_replace_ne df.cols n m v h]
  · simp only [Bool.not_eq_true] at hc
    simp only [hc, Bool.false_eq_true, if_false, List.find?_append]
    have hone : ([(n, v)].find? (fun p => p.1 == m)) = none := by
      rw [List.find?_cons_of_neg _ (by simp [Ne.symm h])]
      rfl
    rw [hone]
    cases df.cols.find? (fun p => p.1 == m) <;> rfl

theorem getCol_setColOpt_ne (df : DataFrame) (n m : String)
    (v : Option (List Value)) (h : m ≠ n) :
    (df.setColOpt n v).getCol m = df.getCol m := by
  cases v with
  | some col => exact getCol_setCol_ne df n m col h
  | none => exact getCol_setCol_ne df n m _ h

theorem hasCol_eq_isSome (df : DataFrame) (n : String) :
    df.hasCol n = (df.getCol n).isSome := by
  unfold hasCol getCol
  induction df.cols with
  | nil => rfl
  | cons a t ih =>
    by_cases ha : a.1 = n
    · simp [List.find?_cons, ha]
    · have ha' : (a.1 == n) = false := by simp [ha]
      simp [List.find?_cons, ha', ih]

theorem getCol_eq_colD (df : DataFrame) (n : String) (h : df.hasCol n = true) :
    df.getCol n = some (df.colD n) := by
  rw [hasCol_eq_isSome] at h
  unfold colD
  cases hg : df.getCol n with
  | none => rw [hg] at h; simp at h
  | some col => simp [hg]

theorem colE_eq_ok (df : DataFrame) (n : String) (h : df.hasCol n = true) :
    df.colE n = .ok (df.colD n) := by
  unfold colE
  rw [DataFrame.getCol_eq_colD df n h]

theorem getCol_ofMap (l : List String) (g : String → List Value) (n : String) :
    DataFrame.getCol ⟨l.map (fun c => (c, g c))⟩ n =
      if n ∈ l then some (g n) else none := by
  unfold getCol
  induction l with
  | nil => simp
  | cons c t ih =>
    rw [List.map_cons]
    by_cases hc : c = n
    · subst hc
      rw [List.find?_cons_of_pos _ (by simp)]
      simp
    · rw [List.find?_cons_of_neg _ (by simp [hc]), ih]
      simp [Ne.symm hc]

end DataFrame

/-- `fillMissing` leaves every column whose name is not in the list alone. -/
theorem getCol_fillMissing_ne (cs : List String) (df : DataFrame) (n : String)
    (h : n ∉ cs) :
    (fillMissing cs df).getCol n = df.getCol n := by
  induction cs generalizing df with
  | nil => rfl
  | cons c t ih =>
    simp only [List.mem_cons, not_or] at h
    unfold fillMissing
    rw [ih _ h.2]
    by_cases hc : df.hasCol c
    · simp [hc]
    · simp only [Bool.not_eq_true] at hc
      simp [hc, DataFrame.getCol_setCol_ne df c n _ h.1]

/-- String concatenation is left-cancellative. -/
theorem string_append_cancel (s t1 t2 : String) (h : s ++ t1 = s ++ t2) :
    t1 = t2 := by
  have hd := congrArg String.data h
  simp only [String.data_append] at hd
  have h2 := List.append_cancel_left hd
  cases t1
  cases t2
  exact congrArg String.mk h2

/-- Unfolding `pyJoin` on a cons with a nonempty tail. -/
theorem pyJoin_cons (sep x : String) (l : List String) (hl : l ≠ []) :
    pyJoin sep (x :: l) = x ++ sep ++ pyJoin sep l := by
  cases l with
  | nil => exact absurd rfl hl
  | cons y t => rfl

/-- Two `'|'.join`s over lists equal except in their (differing) last
element are different strings. -/
theorem pyJoin_ne_last (sep a b : String) (hab : a ≠ b) (xs : List String) :
    pyJoin sep (xs ++ [a]) ≠ pyJoin sep (xs ++ [b]) := by
  induction xs with
  | nil => simpa [pyJoin] using hab
  | cons x t ih =>
    intro h
    rw [List.cons_append, List.cons_append,
        pyJoin_cons sep x (t ++ [a]) (by simp),
        pyJoin_cons sep x (t ++ [b]) (by simp)] at h
    exact ih (string_append_cancel (x ++ sep) _ _ h)

/-- The `trip_id` cell of row `i` produced by `add_trip_id`. -/
theorem rowVal_add_trip_id (df : DataFrame) (i : Nat)
    (h : i < (fillKeys df).nrows) :
    (add_trip_id df).rowVal "trip_id" i =
      some (Value.str (tripIdAt (fillKeys df) i)) := by
  show (((fillKeys df).setCol "trip_id"
      ((List.range (fillKeys df).nrows).map
        (fun k => Value.str (tripIdAt (fillKeys df) k)))).rowVal "trip_id" i) = _
  unfold DataFrame.rowVal
  rw [DataFrame.getCol_setCol_self]
  simp only [Option.some_bind, List.get?_eq_getElem?, List.getElem?_map,
    List.getElem?_range h]
  rfl

/-! ### Concrete frames used by witnesses and counterexamples -/

/-- The scenario pickup timestamp `2020-01-05 08:00:00`. -/
def tsPick : Timestamp := ⟨2020, 1, 5, 8, 0, 0⟩

/-- The scenario dropoff timestamp `2020-01-05 08:20:00`. -/
def tsDrop : Timestamp := ⟨2020, 1, 5, 8, 20, 0⟩

/-- An arbitrary run wall-clock instant for `extracted_at`. -/
def tsRun : Timestamp := ⟨2026, 10, 12, 0, 0, 0⟩

/-- A one-row frame carrying only a service_type column. -/
def dfW1 : DataFrame := ⟨[("service_type", [Value.str "green"])]⟩

/-- A normalized one-row frame with `fare_amount` present as 12.50 (whose
Python string form is `"12.5"`). -/
def dfFare : DataFrame :=
  ⟨[("service_type", [Value.str "green"]), ("pickup_datetime", [Value.ts tsPick]),
    ("dropoff_datetime", [Value.ts tsDrop]), ("pickup_location_id", [Value.int 10]),
    ("dropoff_location_id", [Value.int 20]), ("fare_amount", [Value.float "12.5"])]⟩

/-- The same row with the `fare_amount` column absent. -/
def dfNoFare : DataFrame :=
  ⟨[("service_type", [Value.str "green"]), ("pickup_datetime", [Value.ts tsPick]),
    ("dropoff_datetime", [Value.ts tsDrop]), ("pickup_location_id", [Value.int 10]),
    ("dropoff_location_id", [Value.int 20])]⟩

/-- A one-row frame with one non-key column besides the service type. -/
def dfW6a : DataFrame :=
  ⟨[("service_type", [Value.str "wit"]), ("other_col", [Value.int 7])]⟩

/-- A one-row frame with the same key fields as `dfW6a`. -/
def dfW6b : DataFrame := ⟨[("service_type", [Value.str "wit"])]⟩

/-! ### The claims -/

/-- C1: for every row of the frame passed to `add_trip_id`, the produced
`trip_id` is the first 32 hex characters of the SHA-256 hash of the UTF-8
encoding of the string that concatenates — in the fixed order service_type,
pickup_datetime, dropoff_datetime, pickup_location_id, dropoff_location_id,
fare_amount, separated by `'|'` — the string forms of the six key fields
(absent key columns having been filled with `pd.NA`); and each null
marker's string form is a fixed non-empty placeholder, never the empty
string. -/
theorem C1_trip_id_derivation (df : DataFrame) (i : Nat)
    (h : i < (fillKeys df).nrows) :
    ((add_trip_id df).rowVal "trip_id" i =
      some (Value.str ((sha256HexOf (utf8Encode (pyJoin "|"
        [Value.pyStr (((fillKeys df).colD "service_type").getD i Value.na),
         Value.pyStr (((fillKeys df).colD "pickup_datetime").getD i Value.na),
         Value.pyStr (((fillKeys df).colD "dropoff_datetime").getD i Value.na),
         Value.pyStr (((fillKeys df).colD "pickup_location_id").getD i Value.na),
         Value.pyStr (((fillKeys df).colD "dropoff_location_id").getD i Value.na),
         Value.pyStr (((fillKeys df).colD "fare_amount").getD i Value.na)]))).take 32)))
    ∧ Value.pyStr .na ≠ "" ∧ Value.pyStr .nan ≠ ""
    ∧ Value.pyStr .naT ≠ "" ∧ Value.pyStr .pyNone ≠ "" := by
  refine ⟨?_, by decide, by decide, by decide, by decide⟩
  rw [rowVal_add_trip_id df i h]
  rfl

/-- Witness for C1: the derivation evaluated at a concrete one-row frame. -/
theorem C1_trip_id_derivation_witness :
    ((add_trip_id dfW1).rowVal "trip_id" 0 =
      some (Value.str ((sha256HexOf (utf8Encode (pyJoin "|"
        [Value.pyStr (((fillKeys dfW1).colD "service_type").getD 0 Value.na),
         Value.pyStr (((fillKeys dfW1).colD "pickup_datetime").getD 0 Value.na),
         Value.pyStr (((fillKeys dfW1).colD "dropoff_datetime").getD 0 Value.na),
         Value.pyStr (((fillKeys dfW1).colD "pickup_location_id").getD 0 Value.na),
         Value.pyStr (((fillKeys dfW1).colD "dropoff_location_id").getD 0 Value.na),
         Value.pyStr (((fillKeys dfW1).colD "fare_amount").getD 0 Value.na)]))).take 32)))
    ∧ Value.pyStr .na ≠ "" ∧ Value.pyStr .nan ≠ ""
    ∧ Value.pyStr .naT ≠ "" ∧ Value.pyStr .pyNone ≠ "" :=
  C1_trip_id_derivation dfW1 0 (by decide)

/-- C6: the identifier derivation is a deterministic function of the six
key fields — any two rows (in any frames, at any row positions) with equal
key-field values receive identical `trip_id` strings. -/
theorem C6_trip_id_determinism (df1 df2 : DataFrame) (i j : Nat)
    (h1 : i < (fillKeys df1).nrows) (h2 : j < (fillKeys df2).nrows)
    (hk : keyValsAt (fillKeys df1) i = keyValsAt (fillKeys df2) j) :
    (add_trip_id df1).rowVal "trip_id" i = (add_trip_id df2).rowVal "trip_id" j := by
  rw [rowVal_add_trip_id df1 i h1, rowVal_add_trip_id df2 j h2]
  unfold tripIdAt keyStringAt
  rw [hk]

/-- Witness for C6: two frames that agree on the key fields but differ in
their other columns receive the same `trip_id`. -/
theorem C6_trip_id_determinism_witness :
    (add_trip_id dfW6a).rowVal "trip_id" 0 = (add_trip_id dfW6b).rowVal "trip_id" 0 :=
  C6_trip_id_determinism dfW6a dfW6b 0 0 (by decide) (by decide) (by decide)

/-- C7: whatever the other five key fields hold, the composite key string
of a row with `fare_amount` 12.50 present (string form `"12.5"`) differs
from that of the row with `fare_amount` absent (placeholder `"<NA>"`); and
at the representative concrete pair the derived `trip_id` values differ. -/
theorem C7_null_distinguishability (svc pu dd pl dl : Value) :
    keyStringOf [svc, pu, dd, pl, dl, Value.float "12.5"] ≠
      keyStringOf [svc, pu, dd, pl, dl, Value.na]
    ∧ (add_trip_id dfFare).rowVal "trip_id" 0 ≠
        (add_trip_id dfNoFare).rowVal "trip_id" 0 := by
  constructor
  · show pyJoin "|" ([Value.pyStr svc, Value.pyStr pu, Value.pyStr dd,
        Value.pyStr pl, Value.pyStr dl] ++ ["12.5"]) ≠
      pyJoin "|" ([Value.pyStr svc, Value.pyStr pu, Value.pyStr dd,
        Value.pyStr pl, Value.pyStr dl] ++ ["<NA>"])
    exact pyJoin_ne_last "|" "12.5" "<NA>" (by decide) _
  · decide

/-- A one-row frame carrying both location-column spellings
(`PULocationID=5` and `PUlocationID=9`). -/
def dfBothLoc : DataFrame :=
  ⟨[("PULocationID", [Value.int 5]), ("PUlocationID", [Value.int 9])]⟩

/-- C2 (evidence of the code bug): with both `PULocationID=5` and
`PUlocationID=9` present, lines 147-149 do not resolve
`pickup_location_id` to 5 — `df.get("PULocationID") or
df.get("PUlocationID")` calls `bool()` on the present capitalized-spelling
Series, which pandas rejects, so the statement (and with it the whole
normalization call) raises `ValueError` instead of producing any value. -/
theorem C2_fallback_raises_valueerror :
    normalizeLocations dfBothLoc = .error (.valueError ambiguousMsg)
    ∧ read_taxi_file_from_bytes dfBothLoc "yellow" tsRun =
        .error (.valueError ambiguousMsg) :=
  ⟨rfl, rfl⟩

/-- The C4 scenario row exactly as the claim states it: green family,
`lpep_*` timestamps, capitalized `PULocationID=10`/`DOLocationID=20`,
`fare_amount=15.0`, with `trip_type` and `ehail_fee` present. -/
def dfC4 : DataFrame :=
  ⟨[("lpep_pickup_datetime", [Value.ts tsPick]),
    ("lpep_dropoff_datetime", [Value.ts tsDrop]),
    ("PULocationID", [Value.int 10]), ("DOLocationID", [Value.int 20]),
    ("fare_amount", [Value.float "15.0"]),
    ("trip_type", [Value.int 1]), ("ehail_fee", [Value.float "0.0"])]⟩

/-- The same scenario row with the location ids under the lowercase
spellings, on which the location fallback of line 148 does not raise. -/
def dfC4low : DataFrame :=
  ⟨[("lpep_pickup_datetime", [Value.ts tsPick]),
    ("lpep_dropoff_datetime", [Value.ts tsDrop]),
    ("PUlocationID", [Value.int 10]), ("DOlocationID", [Value.int 20]),
    ("fare_amount", [Value.float "15.0"]),
    ("trip_type", [Value.int 1]), ("ehail_fee", [Value.float "0.0"])]⟩

/-- C4 counterexample: on the claimed scenario input the normalization
produces no output row at all — the capitalized `PULocationID` makes line
148 raise `ValueError`, so no row with the claimed `service_type`,
`pickup_datetime` or `trip_id` exists. -/
theorem C4_scenario_produces_no_row :
    normalizeTrips dfC4 "green" tsRun = .error (.valueError ambiguousMsg) :=
  rfl

/-- C4 as amended: with the location ids under the lowercase spellings the
green scenario row normalizes successfully; `service_type` is `green`, the
`lpep_*` pair is selected, `trip_type`/`ehail_fee` are preserved, and
`trip_id` is the first 32 hex characters of the SHA-256 of
`"green|2020-01-05 08:00:00|2020-01-05 08:20:00|10|20|15.0"` — pandas
string-forms timestamps with a space separator, so this differs from the
claimed hash of the `"T"`-separated string. -/
theorem C4_scenario_amended :
    isOkRun (normalizeTrips dfC4low "green" tsRun) = true
    ∧ (runOk (normalizeTrips dfC4low "green" tsRun)).getCol "service_type" =
        some [Value.str "green"]
    ∧ (runOk (normalizeTrips dfC4low "green" tsRun)).getCol "pickup_datetime" =
        some [Value.ts tsPick]
    ∧ (runOk (normalizeTrips dfC4low "green" tsRun)).getCol "dropoff_datetime" =
        some [Value.ts tsDrop]
    ∧ (runOk (normalizeTrips dfC4low "green" tsRun)).getCol "trip_type" =
        some [Value.int 1]
    ∧ (runOk (normalizeTrips dfC4low "green" tsRun)).getCol "ehail_fee" =
        some [Value.float "0.0"]
    ∧ (runOk (normalizeTrips dfC4low "green" tsRun)).getCol "trip_id" =
        some [Value.str ((sha256HexOf (utf8Encode
          "green|2020-01-05 08:00:00|2020-01-05 08:20:00|10|20|15.0")).take 32)]
    ∧ (sha256HexOf (utf8Encode
          "green|2020-01-05 08:00:00|2020-01-05 08:20:00|10|20|15.0")).take 32 ≠
      (sha256HexOf (utf8Encode
          "green|2020-01-05T08:00:00|2020-01-05T08:20:00|10|20|15.0")).take 32 := by
  refine ⟨rfl, rfl, rfl, rfl, rfl, rfl, rfl, by decide⟩

/-- `add_trip_id` leaves every column other than the key columns and
`trip_id` unchanged. -/
theorem getCol_add_trip_id_ne (df : DataFrame) (n : String)
    (h1 : n ∉ keyCols) (h2 : n ≠ "trip_id") :
    (add_trip_id df).getCol n = df.getCol n := by
  show ((fillKeys df).setCol "trip_id" _).getCol n = _
  rw [DataFrame.getCol_setCol_ne _ _ _ _ h2]
  exact getCol_fillMissing_ne keyCols df n h1

/-- C3: whenever the normalization pipeline returns an output frame for a
service other than `green`, its `trip_type` and `ehail_fee` columns
consist entirely of the `pd.NA` null marker, whatever values the source
columns of the same names carried. -/
theorem C3_family_isolation (df : DataFrame) (service : String)
    (now : Timestamp) (out : DataFrame) (hs : service ≠ "green")
    (hok : normalizeTrips df service now = .ok out) :
    ∃ k, out.getCol "trip_type" = some (List.replicate k Value.na)
       ∧ out.getCol "ehail_fee" = some (List.replicate k Value.na) := by
  unfold normalizeTrips at hok
  cases hr : read_taxi_file_from_bytes df service now with
  | error e => rw [hr] at hok; simp [Except.map] at hok
  | ok mid =>
    rw [hr] at hok
    simp only [Except.map] at hok
    have hout : out = add_trip_id mid := by
      cases hok
      rfl
    unfold read_taxi_file_from_bytes at hr
    cases hnd : normalizeDatetimes
        (df.setCol "service_type" (List.replicate df.nrows (Value.str service))) with
    | error e =>
      rw [hnd] at hr
      simp [Except.bind] at hr
    | ok d2 =>
      rw [hnd] at hr
      simp only [Except.bind] at hr
      cases hnl : normalizeLocations d2 with
      | error e => rw [hnl] at hr; simp [Except.bind] at hr
      | ok d3 =>
        rw [hnl] at hr
        simp only [Except.bind, Except.ok.injEq] at hr
        have hmid : mid =
            stampExtractedAt now (nullGreenOnly service (normalizeOther d3)) := hr.symm
        refine ⟨(normalizeOther d3).nrows, ?_, ?_⟩ <;>
          rw [hout, hmid] <;>
          unfold stampExtractedAt nullGreenOnly
        · rw [getCol_add_trip_id_ne _ _ (by decide) (by decide),
              DataFrame.getCol_setCol_ne _ _ _ _ (by decide)]
          rw [if_neg hs]
          rw [DataFrame.getCol_setCol_ne _ _ _ _ (by decide),
              DataFrame.getCol_setCol_self]
        · rw [getCol_add_trip_id_ne _ _ (by decide) (by decide),
              DataFrame.getCol_setCol_ne _ _ _ _ (by decide)]
          rw [if_neg hs]
          rw [DataFrame.getCol_setCol_self]

/-- An FHV-style one-row frame whose source columns carry stray non-null
`trip_type` and `ehail_fee` values. -/
def dfW3 : DataFrame :=
  ⟨[("pickup_datetime", [Value.ts tsPick]), ("trip_type", [Value.int 9]),
    ("ehail_fee", [Value.float "3.0"])]⟩

/-- Witness for C3: the successful `fhv` run over a frame with stray
`trip_type`/`ehail_fee` values yields all-null columns for both. -/
theorem C3_family_isolation_witness :
    ∃ k, (runOk (normalizeTrips dfW3 "fhv" tsRun)).getCol "trip_type" =
           some (List.replicate k Value.na)
       ∧ (runOk (normalizeTrips dfW3 "fhv" tsRun)).getCol "ehail_fee" =
           some (List.replicate k Value.na) :=
  C3_family_isolation dfW3 "fhv" tsRun (runOk (normalizeTrips dfW3 "fhv" tsRun))
    (by decide) (by rfl)

/-- C9: when the raw `SR_Flag` column is present, every cell is coerced
individually — the output `sr_flag` column is the cell-wise
`to_numeric(errors="coerce").astype("Int64")` image of the same length (no
row is dropped or failed), and any unparseable string cell coerces to the
null marker. -/
theorem C9_sr_flag_coercion (df : DataFrame) (vs : List Value)
    (h : df.getCol "SR_Flag" = some vs) :
    ((normalizeOther df).getCol "sr_flag" = some (vs.map toNumericInt64))
    ∧ (vs.map toNumericInt64).length = vs.length
    ∧ (∀ s : String, s.toInt? = none → toNumericInt64 (Value.str s) = Value.na) := by
  refine ⟨?_, List.length_map vs toNumericInt64, ?_⟩
  · have h2 : (setRatecode (setVendor df)).getCol "SR_Flag" = some vs := by
      unfold setRatecode setVendor
      rw [DataFrame.getCol_setColOpt_ne _ _ _ _ (by decide),
          DataFrame.getCol_setColOpt_ne _ _ _ _ (by decide)]
      exact h
    have hhas : (setRatecode (setVendor df)).hasCol "SR_Flag" = true := by
      rw [DataFrame.hasCol_eq_isSome, h2]
      rfl
    have hcolD : (setRatecode (setVendor df)).colD "SR_Flag" = vs := by
      unfold DataFrame.colD
      rw [h2]
      rfl
    unfold normalizeOther setDispatching setAffiliated
    rw [DataFrame.getCol_setColOpt_ne _ _ _ _ (by decide),
        DataFrame.getCol_setColOpt_ne _ _ _ _ (by decide)]
    unfold setSrFlag
    rw [hhas]
    simp only [if_true]
    rw [hcolD, DataFrame.getCol_setCol_self]
  · intro s hs
    simp [toNumericInt64, hs]

/-- A one-row frame whose `SR_Flag` cell is a non-numeric string. -/
def dfW9 : DataFrame := ⟨[("SR_Flag", [Value.str "not-a-number"])]⟩

/-- Witness for C9 at a concrete frame with an unparseable flag cell. -/
theorem C9_sr_flag_coercion_witness :
    ((normalizeOther dfW9).getCol "sr_flag" =
        some ([Value.str "not-a-number"].map toNumericInt64))
    ∧ ([Value.str "not-a-number"].map toNumericInt64).length =
        [Value.str "not-a-number"].length
    ∧ (∀ s : String, s.toInt? = none → toNumericInt64 (Value.str s) = Value.na) :=
  C9_sr_flag_coercion dfW9 [Value.str "not-a-number"] (by rfl)

/-- C8: the timestamp-pair selection of lines 137-145 follows the fixed
presence chain — with the `tpep_*` pair present the yellow pair is used;
otherwise with the `lpep_*` pair present the green pair is used; otherwise
with the bare FHV `pickup_datetime` present it is kept and
`dropoff_datetime` comes from `dropOff_datetime`, defaulting to an
all-null column when that is absent. -/
theorem C8_timestamp_selection (df : DataFrame) :
    (df.hasCol "tpep_pickup_datetime" = true →
      df.hasCol "tpep_dropoff_datetime" = true →
      ∃ d, normalizeDatetimes df = .ok d
        ∧ d.getCol "pickup_datetime" = df.getCol "tpep_pickup_datetime"
        ∧ d.getCol "dropoff_datetime" = df.getCol "tpep_dropoff_datetime")
    ∧ (df.hasCol "tpep_pickup_datetime" = false →
        df.hasCol "lpep_pickup_datetime" = true →
        df.hasCol "lpep_dropoff_datetime" = true →
        ∃ d, normalizeDatetimes df = .ok d
          ∧ d.getCol "pickup_datetime" = df.getCol "lpep_pickup_datetime"
          ∧ d.getCol "dropoff_datetime" = df.getCol "lpep_dropoff_datetime")
    ∧ (df.hasCol "tpep_pickup_datetime" = false →
        df.hasCol "lpep_pickup_datetime" = false →
        df.hasCol "pickup_datetime" = true →
        ∃ d, normalizeDatetimes df = .ok d
          ∧ d.getCol "pickup_datetime" = df.getCol "pickup_datetime"
          ∧ (df.hasCol "dropOff_datetime" = true →
              d.getCol "dropoff_datetime" = df.getCol "dropOff_datetime")
          ∧ (df.hasCol "dropOff_datetime" = false →
              ∃ k, d.getCol "dropoff_datetime" =
                some (List.replicate k Value.na))) := by
  refine ⟨?_, ?_, ?_⟩
  · intro h1 h2
    unfold normalizeDatetimes
    rw [if_pos h1, DataFrame.colE_eq_ok df _ h1, DataFrame.colE_eq_ok df _ h2]
    simp only [Except.bind]
    refine ⟨_, rfl, ?_, ?_⟩
    · rw [DataFrame.getCol_setCol_ne _ _ _ _ (by decide),
          DataFrame.getCol_setCol_self, DataFrame.getCol_eq_colD df _ h1]
    · rw [DataFrame.getCol_setCol_self, DataFrame.getCol_eq_colD df _ h2]
  · intro h1 h2 h3
    have hn1 : ¬(df.hasCol "tpep_pickup_datetime" = true) := by simp [h1]
    unfold normalizeDatetimes
    rw [if_neg hn1, if_pos h2, DataFrame.colE_eq_ok df _ h2, DataFrame.colE_eq_ok df _ h3]
    simp only [Except.bind]
    refine ⟨_, rfl, ?_, ?_⟩
    · rw [DataFrame.getCol_setCol_ne _ _ _ _ (by decide),
          DataFrame.getCol_setCol_self, DataFrame.getCol_eq_colD df _ h2]
    · rw [DataFrame.getCol_setCol_self, DataFrame.getCol_eq_colD df _ h3]
  · intro h1 h2 h3
    have hn1 : ¬(df.hasCol "tpep_pickup_datetime" = true) := by simp [h1]
    have hn2 : ¬(df.hasCol "lpep_pickup_datetime" = true) := by simp [h2]
    unfold normalizeDatetimes
    rw [if_neg hn1, if_neg hn2, if_pos h3, DataFrame.colE_eq_ok df _ h3]
    simp only [Except.bind]
    have hpick : ((df.setCol "pickup_datetime" (df.colD "pickup_datetime")).setCol
        "dropoff_datetime" ((df.setCol "pickup_datetime"
          (df.colD "pickup_datetime")).colD "dropOff_datetime")).getCol
        "pickup_datetime" = df.getCol "pickup_datetime" := by
      rw [DataFrame.getCol_setCol_ne _ _ _ _ (by decide),
          DataFrame.getCol_setCol_self, DataFrame.getCol_eq_colD df _ h3]
    by_cases hd : df.hasCol "dropOff_datetime" = true
    · rw [if_pos hd]
      refine ⟨_, rfl, hpick, fun _ => ?_, fun hcontra => absurd hd (by simp [hcontra])⟩
      rw [DataFrame.getCol_setCol_self]
      have hkeep : (df.setCol "pickup_datetime"
          (df.colD "pickup_datetime")).colD "dropOff_datetime" =
            df.colD "dropOff_datetime" := by
        unfold DataFrame.colD
        rw [DataFrame.getCol_setCol_ne _ _ _ _ (by decide)]
      rw [hkeep, DataFrame.getCol_eq_colD df _ hd]
    · rw [if_neg hd]
      refine ⟨_, rfl, ?_, fun hcontra => absurd hcontra hd,
        fun _ => ⟨(df.setCol "pickup_datetime" (df.colD "pickup_datetime")).nrows, ?_⟩⟩
      · rw [DataFrame.getCol_setCol_ne _ _ _ _ (by decide),
            DataFrame.getCol_setCol_self, DataFrame.getCol_eq_colD df _ h3]
      · rw [DataFrame.getCol_setCol_self]

/-- A one-row yellow-style frame (both `tpep_*` columns). -/
def dfW8y : DataFrame :=
  ⟨[("tpep_pickup_datetime", [Value.ts tsPick]),
    ("tpep_dropoff_datetime", [Value.ts tsDrop])]⟩

/-- A one-row green-style frame (both `lpep_*` columns). -/
def dfW8g : DataFrame :=
  ⟨[("lpep_pickup_datetime", [Value.ts tsPick]),
    ("lpep_dropoff_datetime", [Value.ts tsDrop])]⟩

/-- A one-row FHV-style frame (bare `pickup_datetime`, no dropoff). -/
def dfW8f : DataFrame := ⟨[("pickup_datetime", [Value.ts tsPick])]⟩

/-- Witness for C8: the selection evaluated on a yellow-style, a
green-style, and an FHV-style frame. -/
theorem C8_timestamp_selection_witness :
    (∃ d, normalizeDatetimes dfW8y = .ok d
      ∧ d.getCol "pickup_datetime" = dfW8y.getCol "tpep_pickup_datetime"
      ∧ d.getCol "dropoff_datetime" = dfW8y.getCol "tpep_dropoff_datetime")
    ∧ (∃ d, normalizeDatetimes dfW8g = .ok d
      ∧ d.getCol "pickup_datetime" = dfW8g.getCol "lpep_pickup_datetime"
      ∧ d.getCol "dropoff_datetime" = dfW8g.getCol "lpep_dropoff_datetime")
    ∧ (∃ d, normalizeDatetimes dfW8f = .ok d
      ∧ d.getCol "pickup_datetime" = dfW8f.getCol "pickup_datetime"
      ∧ (dfW8f.hasCol "dropOff_datetime" = true →
          d.getCol "dropoff_datetime" = dfW8f.getCol "dropOff_datetime")
      ∧ (dfW8f.hasCol "dropOff_datetime" = false →
          ∃ k, d.getCol "dropoff_datetime" =
            some (List.replicate k Value.na))) :=
  ⟨(C8_timestamp_selection dfW8y).1 (by decide) (by decide),
   (C8_timestamp_selection dfW8g).2.1 (by decide) (by decide) (by decide),
   (C8_timestamp_selection dfW8f).2.2 (by decide) (by decide) (by decide)⟩

/-- C5: whatever columns the normalized frame carries, the projection
`materialize` applies yields exactly the fixed 26-entry column list
(`data_file_month` through `extracted_at`) in that order, and every target
column the frame does not carry is present, filled with the null marker,
never omitted. -/
theorem C5_schema_completeness (df : DataFrame) :
    (materializeProject df).colNames = TARGET_COLUMNS
    ∧ TARGET_COLUMNS.length = 26
    ∧ (∀ c, c ∈ TARGET_COLUMNS → df.hasCol c = false →
        (materializeProject df).getCol c =
          some (List.replicate (selectAvailable df).nrows Value.nan)) := by
  refine ⟨?_, by decide, ?_⟩
  · unfold materializeProject reindexTo DataFrame.colNames
    rfl
  · intro c hc hnc
    unfold materializeProject reindexTo
    rw [DataFrame.getCol_ofMap TARGET_COLUMNS _ c, if_pos hc]
    have hsel : (selectAvailable df).getCol c = none := by
      unfold selectAvailable
      rw [DataFrame.getCol_ofMap (TARGET_COLUMNS.filter (fun x => df.hasCol x))
        (fun x => df.colD x) c]
      have hmem : c ∉ TARGET_COLUMNS.filter (fun x => df.hasCol x) := by
        intro hin
        have := List.of_mem_filter hin
        rw [hnc] at this
        exact absurd this (by decide)
      rw [if_neg hmem]
    rw [hsel]
    rfl

/-- A frame carrying one target column and one junk column. -/
def dfW5 : DataFrame :=
  ⟨[("trip_id", [Value.str "x"]), ("junk", [Value.int 1])]⟩

/-- Witness for C5: a target column absent from a concrete frame comes out
present and null-filled. -/
theorem C5_schema_completeness_witness :
    (materializeProject dfW5).getCol "vendor_id" =
      some (List.replicate (selectAvailable dfW5).nrows Value.nan) :=
  (C5_schema_completeness dfW5).2.2 "vendor_id" (by decide) (by decide)

/-- C10 (amended): neither `datetime` nor `hashlib` is bound at module
level; the literal `read_taxi_file_from_bytes` never returns normally on
any input (so every `materialize` run over a non-empty `taxi_types` list
fails before producing output); executions that reach the `extracted_at`
stamping of line 168 fail there with `NameError` on `datetime`, and
`add_trip_id` as written succeeds only on an empty frame, raising
`NameError` on `hashlib` otherwise. -/
theorem C10_unbound_names :
    "datetime" ∉ moduleBindings ∧ "hashlib" ∉ moduleBindings
    ∧ (∀ df service, isOkRun (read_taxi_file_from_bytes_literal df service) = false)
    ∧ read_taxi_file_from_bytes_literal
        ⟨[("pickup_datetime", [Value.ts tsPick])]⟩ "fhv" =
        .error (.nameError "datetime")
    ∧ (∀ df, add_trip_id_literal df = .ok ((fillKeys df).setCol "trip_id" [])
        ∨ add_trip_id_literal df = .error (.nameError "hashlib")) := by
  refine ⟨by decide, by decide, ?_, rfl, ?_⟩
  · intro df service
    unfold read_taxi_file_from_bytes_literal
    cases hnd : normalizeDatetimes
        (df.setCol "service_type" (List.replicate df.nrows (Value.str service))) with
    | error e => simp [Except.bind, isOkRun]
    | ok d2 =>
      simp only [Except.bind]
      cases hnl : normalizeLocations d2 with
      | error e => simp [Except.bind, isOkRun]
      | ok d3 =>
        have hev : evalName "datetime" = .error (.nameError "datetime") := rfl
        simp [Except.bind, hev, isOkRun]
  · intro df
    unfold add_trip_id_literal
    cases hn : (fillKeys df).nrows with
    | zero => exact Or.inl rfl
    | succ m =>
      right
      rw [List.range_succ_eq_map, List.mapM_cons]
      have hev : evalName "hashlib" = .error (.nameError "hashlib") := rfl
      simp [hev, Except.map, Except.bind, Except.instMonad]

/-- C10 counterexample: the claim that every input fails with a `NameError`
is refuted by a frame carrying a capitalized location column — it fails at
line 148 with `ValueError` instead, before line 168 is reached. -/
theorem C10_not_always_nameerror :
    read_taxi_file_from_bytes_literal
      ⟨[("PULocationID", [Value.int 5]), ("PUlocationID", [Value.int 9])]⟩
      "yellow" = .error (.valueError ambiguousMsg) :=
  rfl

end TaxiTrips
